import Mathlib

/-!
Shallow embedding of `generate_icons.py` from the location-tracker-ios
repository, together with proofs of the specification's claims about it.

The script has two parts:
  * `create_icon size filename` — builds a square RGB raster with a blue
    background, a white inscribed circle, a blue pin triangle and a small
    blue base circle, then saves it as a PNG and prints a progress line;
  * `main` — iterates a fixed 17-entry table of (size, filename) pairs and
    calls `create_icon` for each, writing into a fixed asset directory.

Drawing is modelled symbolically: an image records its dimensions, channel
count, background colour and the ordered list of draw operations issued
against it.  Filesystem interaction is modelled by an explicit association
list of (path, PNG data) pairs plus a writability predicate on paths; the
PNG encoding is modelled as a deterministic injective wrapper around the
image, which is faithful for the purposes of the claims (determinism and
dimension preservation of the encoder).
-/

namespace GenerateIcons

/-- Colours used by the script: `'#007AFF'` (the iOS accent blue) and
`'white'`. -/
inductive Color where
  | blue
  | white
deriving DecidableEq, Repr

/-- Bounding box `[x0, y0, x1, y1]` as passed to PIL's `ellipse`. -/
structure BBox where
  x0 : Nat
  y0 : Nat
  x1 : Nat
  y1 : Nat
deriving DecidableEq, Repr

/-- One drawing operation issued against the canvas, in the order the
script issues them. -/
inductive DrawOp where
  | ellipse (box : BBox) (fill : Color)
  | polygon (points : List (Nat × Nat)) (fill : Color)
deriving DecidableEq, Repr

/-- An in-memory raster: `Image.new('RGB', (w, h), color)` plus the list of
draw operations performed on it.  `channels = 3` models mode `'RGB'`. -/
structure Image where
  width : Nat
  height : Nat
  channels : Nat
  background : Color
  ops : List DrawOp
deriving DecidableEq, Repr

/-- Model of `Image.new('RGB', (size, size), color='#007AFF')`. -/
def Image.new (size : Nat) : Image :=
  { width := size, height := size, channels := 3,
    background := Color.blue, ops := [] }

/-- Model of `draw.ellipse([x0, y0, x1, y1], fill=c)`. -/
def Image.drawEllipse (img : Image) (box : BBox) (fill : Color) : Image :=
  { img with ops := img.ops ++ [DrawOp.ellipse box fill] }

/-- Model of `draw.polygon(points, fill=c)`. -/
def Image.drawPolygon (img : Image) (points : List (Nat × Nat))
    (fill : Color) : Image :=
  { img with ops := img.ops ++ [DrawOp.polygon points fill] }

/-- PNG-encoded file contents, as produced by `img.save(filename, 'PNG')`.
The encoder is deterministic, so it is modelled as a wrapper holding the
encoded image. -/
structure PngData where
  image : Image
deriving DecidableEq, Repr

/-- Deterministic PNG encoding of an image. -/
def pngEncode (img : Image) : PngData := ⟨img⟩

/-- Observable side effects of a call to `create_icon`: the `img.save`
filesystem write and the `print` progress line. -/
inductive Effect where
  | write (path : String) (data : PngData)
  | printLine (msg : String)
deriving DecidableEq, Repr

/-- Whether an effect is a filesystem write. -/
def Effect.isWrite : Effect → Bool
  | Effect.write _ _ => true
  | Effect.printLine _ => false

/-- Error raised when a non-positive-size image is requested.  Pillow's
`Image.new` checks `_check_size`, which raises `ValueError` exactly when a
requested dimension is negative (width and height must be `>= 0`; a 0x0
image is allowed). -/
inductive RenderError where
  | invalidSize
deriving DecidableEq, Repr

/-- Drawing part of `create_icon` for a non-negative size: background
fill, white circle, pin triangle, pin base circle — each coordinate
computed exactly as the source does with Python floor division (which on
non-negative operands is `Nat` division). -/
def createIconImage (size : Nat) : Image :=
  let img := Image.new size
  let margin := size / 8
  let img := img.drawEllipse ⟨margin, margin, size - margin, size - margin⟩ Color.white
  let pin_size := size / 4
  let pin_x := size / 2
  let pin_y := size / 2 + pin_size / 4
  let points := [(pin_x, pin_y - pin_size / 2),
                 (pin_x - pin_size / 3, pin_y + pin_size / 4),
                 (pin_x + pin_size / 3, pin_y + pin_size / 4)]
  let img := img.drawPolygon points Color.blue
  let circle_size := pin_size / 3
  img.drawEllipse
    ⟨pin_x - circle_size / 2, pin_y + pin_size / 4 - circle_size / 2,
     pin_x + circle_size / 2, pin_y + pin_size / 4 + circle_size / 2⟩
    Color.blue

/-- Model of `create_icon(size, filename)`.  `Image.new` rejects negative
sizes (Pillow raises `ValueError` there, before any drawing); otherwise the
image is drawn, saved as PNG at `filename` and a progress line is printed.
The two effects are returned as an explicit trace in program order. -/
def create_icon (size : Int) (filename : String) :
    Except RenderError (Image × List Effect) :=
  if size < 0 then Except.error RenderError.invalidSize
  else
    let img := createIconImage size.toNat
    Except.ok (img,
      [Effect.write filename (pngEncode img),
       Effect.printLine ("Created " ++ filename ++ " (" ++ toString size
         ++ "x" ++ toString size ++ ")")])

/-- The image produced by a call to `create_icon`, when it succeeds. -/
def renderedImage (size : Int) (filename : String) : Option Image :=
  (create_icon size filename).toOption.map Prod.fst

/-- The effect trace of a call to `create_icon`, when it succeeds. -/
def effectsOf (size : Int) (filename : String) : List Effect :=
  match create_icon size filename with
  | Except.ok (_, effs) => effs
  | Except.error _ => []

/-- Fixed output directory of the batch driver. -/
def icon_dir : String := "LocationTracker/Assets.xcassets/AppIcon.appiconset"

/-- The fixed table of (size, filename) pairs, verbatim from `main`. -/
def icons : List (Nat × String) :=
  [(40, "Icon-App-20x20@2x.png"),
   (60, "Icon-App-20x20@3x.png"),
   (58, "Icon-App-29x29@2x.png"),
   (87, "Icon-App-29x29@3x.png"),
   (80, "Icon-App-40x40@2x.png"),
   (120, "Icon-App-40x40@3x.png"),
   (120, "Icon-App-60x60@2x.png"),
   (180, "Icon-App-60x60@3x.png"),
   (20, "Icon-App-20x20@1x.png"),
   (40, "Icon-App-20x20@2x.png"),
   (29, "Icon-App-29x29@1x.png"),
   (58, "Icon-App-29x29@2x.png"),
   (40, "Icon-App-40x40@1x.png"),
   (80, "Icon-App-40x40@2x.png"),
   (152, "Icon-App-76x76@2x.png"),
   (167, "Icon-App-83.5x83.5@2x.png"),
   (1024, "Icon-App-1024x1024@1x.png")]

/-- Model of `os.path.join(icon_dir, filename)` (POSIX join of a relative
directory with a bare file name). -/
def joinPath (dir file : String) : String := dir ++ "/" ++ file

/-- The filesystem visible to the script: an association list from paths
to PNG contents, most recent write first. -/
abbrev FS := List (String × PngData)

/-- Writing a file: the new (path, data) pair shadows any older entry. -/
def writeFile (fs : FS) (path : String) (data : PngData) : FS :=
  (path, data) :: fs

/-- Reading a file back: the most recent write to the path, if any. -/
def lookupFile : FS → String → Option PngData
  | [], _ => none
  | (q, d) :: rest, p => if q = p then some d else lookupFile rest p

/-- Errors that abort the batch: a failed `img.save` (directory missing or
unwritable) or a propagated renderer error. -/
inductive BatchError where
  | fileWrite (path : String)
  | render (e : RenderError)
deriving DecidableEq, Repr

/-- Applying one effect to the filesystem.  A write to an unwritable path
raises `FileWriteError`, carrying the filesystem as it stood at that
moment; a print leaves the filesystem unchanged. -/
def applyEffect (w : String → Bool) (fs : FS) :
    Effect → Except (BatchError × FS) FS
  | Effect.write p d =>
      if w p then Except.ok (writeFile fs p d)
      else Except.error (BatchError.fileWrite p, fs)
  | Effect.printLine _ => Except.ok fs

/-- Applying a trace of effects in order, stopping at the first failure. -/
def applyEffects (w : String → Bool) (fs : FS) :
    List Effect → Except (BatchError × FS) FS
  | [] => Except.ok fs
  | e :: rest =>
      match applyEffect w fs e with
      | Except.error err => Except.error err
      | Except.ok fs' => applyEffects w fs' rest

/-- The loop body of `main`: for each (size, filename) pair in order, call
`create_icon` on the joined path and perform its effects; any exception
aborts the remaining entries. -/
def runIcons (w : String → Bool) :
    List (Nat × String) → FS → Except (BatchError × FS) FS
  | [], fs => Except.ok fs
  | (size, filename) :: rest, fs =>
      match create_icon (Int.ofNat size) (joinPath icon_dir filename) with
      | Except.error e => Except.error (BatchError.render e, fs)
      | Except.ok (_, effs) =>
          match applyEffects w fs effs with
          | Except.error err => Except.error err
          | Except.ok fs' => runIcons w rest fs'

/-- Model of `main()`: run the whole fixed table against the filesystem,
given which paths are writable. -/
def main (w : String → Bool) (fs : FS) : Except (BatchError × FS) FS :=
  runIcons w icons fs

/-- Process exit status: 0 when `main` completes, non-zero when an
unhandled exception terminates it. -/
def exitCode (w : String → Bool) (fs : FS) : Nat :=
  match main w fs with
  | Except.ok _ => 0
  | Except.error _ => 1

/-- The 14 distinct (size, filename) rows of the table, as listed in the
specification's file-name table. -/
def distinctIcons : List (Nat × String) :=
  [(20, "Icon-App-20x20@1x.png"),
   (40, "Icon-App-20x20@2x.png"),
   (60, "Icon-App-20x20@3x.png"),
   (29, "Icon-App-29x29@1x.png"),
   (58, "Icon-App-29x29@2x.png"),
   (87, "Icon-App-29x29@3x.png"),
   (40, "Icon-App-40x40@1x.png"),
   (80, "Icon-App-40x40@2x.png"),
   (120, "Icon-App-40x40@3x.png"),
   (120, "Icon-App-60x60@2x.png"),
   (180, "Icon-App-60x60@3x.png"),
   (152, "Icon-App-76x76@2x.png"),
   (167, "Icon-App-83.5x83.5@2x.png"),
   (1024, "Icon-App-1024x1024@1x.png")]

/-- The filesystem state after writing every table entry in order. -/
def batchWrites (table : List (Nat × String)) (fs : FS) : FS :=
  table.foldl
    (fun acc e => writeFile acc (joinPath icon_dir e.2)
      (pngEncode (createIconImage e.1)))
    fs

/-- The (path, contents) pair written for one table entry. -/
def entryFile (e : Nat × String) : String × PngData :=
  (joinPath icon_dir e.2, pngEncode (createIconImage e.1))

/-- Whether a call to `create_icon` completes without raising. -/
def rendersOk (size : Int) (filename : String) : Bool :=
  match create_icon size filename with
  | Except.ok _ => true
  | Except.error _ => false

/-- Points of the first polygon drawn on an image (the pin triangle). -/
def firstPolygon (img : Image) : Option (List (Nat × Nat)) :=
  img.ops.findSome? fun op =>
    match op with
    | DrawOp.polygon pts _ => some pts
    | DrawOp.ellipse _ _ => none

/-- Apex (first listed vertex) of the pin triangle at a given size. -/
def triangleApex (s : Nat) : Nat × Nat :=
  (((firstPolygon (createIconImage s)).getD []).headD (0, 0))

/-- Chebyshev (pixel-grid) distance between two pixel positions. -/
def chebDist (p q : Nat × Nat) : Nat :=
  max (max (p.1 - q.1) (q.1 - p.1)) (max (p.2 - q.2) (q.2 - p.2))

/-- Two filesystems hold the same contents at every path. -/
def sameFiles (a b : FS) : Prop :=
  ∀ p, lookupFile a p = lookupFile b p

/-- Every one of the 14 distinct table rows is present in the filesystem:
the joined path holds exactly the PNG encoding of the icon rendered at the
row's size, and that icon's pixel dimensions equal the row's size. -/
def completeOutput (fs : FS) : Prop :=
  ∀ e ∈ distinctIcons,
    lookupFile fs (joinPath icon_dir e.2) =
      some (pngEncode (createIconImage e.1)) ∧
    (createIconImage e.1).width = e.1 ∧
    (createIconImage e.1).height = e.1

/-! ## Helper lemmas -/

/-- Evaluation of `create_icon` at a table size (always non-negative). -/
theorem create_icon_ofNat (s : Nat) (f : String) :
    create_icon (Int.ofNat s) f =
      Except.ok (createIconImage s,
        [Effect.write f (pngEncode (createIconImage s)),
         Effect.printLine ("Created " ++ f ++ " (" ++ toString (Int.ofNat s)
           ++ "x" ++ toString (Int.ofNat s) ++ ")")]) := by
  simp [create_icon]

/-- A successful batch run produces exactly the folded sequence of
writes. -/
theorem runIcons_ok (w : String → Bool) (table : List (Nat × String))
    (fs fs' : FS) (h : runIcons w table fs = Except.ok fs') :
    fs' = batchWrites table fs := by
  induction table generalizing fs with
  | nil =>
      simp only [runIcons, Except.ok.injEq] at h
      simpa [batchWrites] using h.symm
  | cons e rest ih =>
      obtain ⟨size, filename⟩ := e
      rw [runIcons, create_icon_ofNat] at h
      simp only [applyEffects, applyEffect] at h
      by_cases hw : w (joinPath icon_dir filename) = true
      · rw [if_pos hw] at h
        simpa [batchWrites, List.foldl] using ih _ h
      · rw [if_neg hw] at h
        exact absurd h (by simp)

/-- A successful batch run passed the writability check on every entry. -/
theorem runIcons_ok_writable (w : String → Bool)
    (table : List (Nat × String)) (fs fs' : FS)
    (h : runIcons w table fs = Except.ok fs') :
    ∀ e ∈ table, w (joinPath icon_dir e.2) = true := by
  induction table generalizing fs with
  | nil => intro e he; cases he
  | cons e rest ih =>
      obtain ⟨size, filename⟩ := e
      rw [runIcons, create_icon_ofNat] at h
      simp only [applyEffects, applyEffect] at h
      by_cases hw : w (joinPath icon_dir filename) = true
      · rw [if_pos hw] at h
        intro e' he'
        rcases List.mem_cons.mp he' with h1 | h2
        · subst h1; exact hw
        · exact ih _ h e' h2
      · rw [if_neg hw] at h
        exact absurd h (by simp)

/-- When every entry's path is writable, the batch succeeds and produces
the folded sequence of writes. -/
theorem runIcons_all_writable (w : String → Bool)
    (table : List (Nat × String)) (fs : FS)
    (hw : ∀ e ∈ table, w (joinPath icon_dir e.2) = true) :
    runIcons w table fs = Except.ok (batchWrites table fs) := by
  induction table generalizing fs with
  | nil => simp [runIcons, batchWrites]
  | cons e rest ih =>
      obtain ⟨size, filename⟩ := e
      rw [runIcons, create_icon_ofNat]
      simp only [applyEffects, applyEffect]
      rw [if_pos (hw _ (List.mem_cons_self _ _))]
      simpa [batchWrites, List.foldl] using
        ih _ fun e' he' => hw e' (List.mem_cons_of_mem _ he')

/-- When every entry before some table position is writable and that
position's path is not, the batch stops there: it raises `FileWriteError`
for that path and the filesystem holds exactly the writes of the earlier
entries. -/
theorem runIcons_fails (w : String → Bool) (pre : List (Nat × String))
    (size : Nat) (filename : String) (post : List (Nat × String)) (fs : FS)
    (hpre : ∀ e ∈ pre, w (joinPath icon_dir e.2) = true)
    (hfail : w (joinPath icon_dir filename) = false) :
    runIcons w (pre ++ (size, filename) :: post) fs =
      Except.error (BatchError.fileWrite (joinPath icon_dir filename),
        batchWrites pre fs) := by
  induction pre generalizing fs with
  | nil =>
      rw [List.nil_append, runIcons, create_icon_ofNat]
      simp [applyEffects, applyEffect, hfail, batchWrites]
  | cons e rest ih =>
      obtain ⟨s', f'⟩ := e
      rw [List.cons_append, runIcons, create_icon_ofNat]
      simp only [applyEffects, applyEffect]
      rw [if_pos (hpre _ (List.mem_cons_self _ _))]
      simpa [batchWrites, List.foldl] using
        ih _ fun e' he' => hpre e' (List.mem_cons_of_mem _ he')

/-- Unfolding of `batchWrites` as a prepended reversed list of writes. -/
theorem batchWrites_eq (table : List (Nat × String)) (fs : FS) :
    batchWrites table fs = (table.map entryFile).reverse ++ fs := by
  induction table generalizing fs with
  | nil => simp [batchWrites]
  | cons e rest ih =>
      simp [batchWrites, List.foldl] at ih ⊢
      rw [ih]
      simp [writeFile, entryFile]

/-- Lookup distributes over appended filesystem fragments. -/
theorem lookupFile_append (xs ys : FS) (p : String) :
    lookupFile (xs ++ ys) p =
      match lookupFile xs p with
      | some d => some d
      | none => lookupFile ys p := by
  induction xs with
  | nil => simp [lookupFile]
  | cons e rest ih =>
      obtain ⟨q, d⟩ := e
      by_cases hq : q = p
      · simp [lookupFile, hq]
      · simp [lookupFile, hq, ih]

/-- Writing the same fragment twice is invisible to lookup. -/
theorem lookupFile_rep (ws fs : FS) (p : String) :
    lookupFile (ws ++ (ws ++ fs)) p = lookupFile (ws ++ fs) p := by
  rw [lookupFile_append, lookupFile_append]
  cases h : lookupFile ws p with
  | some d => rfl
  | none => rfl

/-! ## Claims -/

/-- C1: for every size s > 0 the icon renderer `create_icon` produces an
in-memory raster of exactly s×s pixels with 3 colour channels (mode RGB).
The draw-operation model has no scaling or cropping operation, so the
dimensions fixed at creation are the dimensions of the result. -/
theorem C1_render_dimensions (size : Int) (f : String) (h : 0 < size) :
    (renderedImage size f).map Image.width = some size.toNat ∧
    (renderedImage size f).map Image.height = some size.toNat ∧
    (renderedImage size f).map Image.channels = some 3 := by
  have hn : ¬ size < 0 := by omega
  unfold renderedImage create_icon
  rw [if_neg hn]
  exact ⟨rfl, rfl, rfl⟩

/-- Witness for C1 at size 120. -/
theorem C1_render_dimensions_witness :
    (renderedImage 120 "Icon-App-60x60@2x.png").map Image.width = some 120 ∧
    (renderedImage 120 "Icon-App-60x60@2x.png").map Image.height = some 120 ∧
    (renderedImage 120 "Icon-App-60x60@2x.png").map Image.channels = some 3 :=
  C1_render_dimensions 120 "Icon-App-60x60@2x.png" (by decide)

/-- C3 as stated is false at size 0: the claim demands an invalid-size
failure for every size ≤ 0, but Pillow's `Image.new` only rejects negative
dimensions (width and height must be `>= 0`), so `create_icon` at size 0
succeeds and does not raise an invalid-size error. -/
theorem C3_counterexample :
    (0 : Int) ≤ 0 ∧
    create_icon 0 "icon.png" ≠ Except.error RenderError.invalidSize := by
  constructor
  · exact le_refl 0
  · intro hcontra
    simp [create_icon] at hcontra

/-- C3 amended: `create_icon` fails with the invalid-size error exactly for
negative sizes, and for every size ≥ 0 (zero included) the rendering
computation succeeds without error. -/
theorem C3_invalid_size_amended (size : Int) (f : String) :
    (size < 0 → create_icon size f = Except.error RenderError.invalidSize) ∧
    (0 ≤ size → rendersOk size f = true) := by
  constructor
  · intro h
    simp [create_icon, h]
  · intro h
    simp [rendersOk, create_icon, Int.not_lt.mpr h]

/-- Witness for the amended C3 at sizes -1 and 0. -/
theorem C3_invalid_size_amended_witness :
    create_icon (-1) "icon.png" = Except.error RenderError.invalidSize ∧
    rendersOk 0 "icon.png" = true :=
  ⟨(C3_invalid_size_amended (-1) "icon.png").1 (by decide),
   (C3_invalid_size_amended 0 "icon.png").2 (by decide)⟩

/-- C4 as stated is false: at the positive size 120 the renderer's effect
trace contains a filesystem write (`img.save` is inside `create_icon`), so
invoking the renderer is not free of filesystem writes. -/
theorem C4_counterexample :
    (0 : Int) < 120 ∧
    (effectsOf 120 "icon.png").any Effect.isWrite = true := by
  exact ⟨by decide, rfl⟩

/-- C4 amended: the drawing computation itself (`createIconImage`) is a
pure function of the size, but `create_icon` as implemented additionally
performs exactly one filesystem write (the PNG save to the given filename)
followed by exactly one line of printed output — this trace, nothing more
and nothing less. -/
theorem C4_effects_amended (size : Int) (f : String) (h : 0 ≤ size) :
    create_icon size f =
      Except.ok (createIconImage size.toNat,
        [Effect.write f (pngEncode (createIconImage size.toNat)),
         Effect.printLine ("Created " ++ f ++ " (" ++ toString size ++ "x"
           ++ toString size ++ ")")]) := by
  simp [create_icon, Int.not_lt.mpr h]

/-- Witness for the amended C4 at size 120. -/
theorem C4_effects_amended_witness :
    create_icon 120 "icon.png" =
      Except.ok (createIconImage 120,
        [Effect.write "icon.png" (pngEncode (createIconImage 120)),
         Effect.printLine "Created icon.png (120x120)"]) :=
  C4_effects_amended 120 "icon.png" (by decide)

/-- C6: for every size s > 0 the white circle is the first draw operation
and its bounding box spans from s/8 to s - s/8 on each axis (inset s/8 from
every edge), so its diameter is s - 2*(s/8). -/
theorem C6_circle_inset (s : Nat) (h : 0 < s) :
    (createIconImage s).ops.head? =
      some (DrawOp.ellipse ⟨s / 8, s / 8, s - s / 8, s - s / 8⟩
        Color.white) ∧
    (s - s / 8) - s / 8 = s - 2 * (s / 8) := by
  exact ⟨rfl, by omega⟩

/-- Witness for C6 at size 120. -/
theorem C6_circle_inset_witness :
    (createIconImage 120).ops.head? =
      some (DrawOp.ellipse ⟨15, 15, 105, 105⟩ Color.white) ∧
    (120 - 120 / 8) - 120 / 8 = 120 - 2 * (120 / 8) :=
  C6_circle_inset 120 (by decide)

/-- C7: for every size s > 0 the renderer's draw operations are exactly the
claimed closed-form integer formulas: with pinSize = s/4, centerX = s/2 and
centerY = s/2 + pinSize/4 (the canvas centre offset downward by pinSize/4),
the triangle vertices are (centerX, centerY - pinSize/2),
(centerX - pinSize/3, centerY + pinSize/4) and
(centerX + pinSize/3, centerY + pinSize/4), and the pin base is a circle of
diameter pinSize/3 centred at (centerX, centerY + pinSize/4), drawn as the
bounding box [cx - d/2, cy - d/2, cx + d/2, cy + d/2] with truncating
division at every step, all in the accent colour. -/
theorem C7_pin_formulas (s : Nat) (h : 0 < s) :
    (createIconImage s).ops =
      [DrawOp.ellipse ⟨s / 8, s / 8, s - s / 8, s - s / 8⟩ Color.white,
       DrawOp.polygon
         [(s / 2, s / 2 + (s / 4) / 4 - (s / 4) / 2),
          (s / 2 - (s / 4) / 3, s / 2 + (s / 4) / 4 + (s / 4) / 4),
          (s / 2 + (s / 4) / 3, s / 2 + (s / 4) / 4 + (s / 4) / 4)]
         Color.blue,
       DrawOp.ellipse
         ⟨s / 2 - ((s / 4) / 3) / 2,
          s / 2 + (s / 4) / 4 + (s / 4) / 4 - ((s / 4) / 3) / 2,
          s / 2 + ((s / 4) / 3) / 2,
          s / 2 + (s / 4) / 4 + (s / 4) / 4 + ((s / 4) / 3) / 2⟩
         Color.blue] := by
  rfl

/-- Witness for C7 at size 120. -/
theorem C7_pin_formulas_witness :
    (createIconImage 120).ops =
      [DrawOp.ellipse ⟨15, 15, 105, 105⟩ Color.white,
       DrawOp.polygon [(60, 52), (50, 74), (70, 74)] Color.blue,
       DrawOp.ellipse ⟨55, 69, 65, 79⟩ Color.blue] :=
  C7_pin_formulas 120 (by decide)

/-- C8 as stated is false on the apex position: at size 120 the pin
triangle's apex is the pixel (60, 52), which lies at Chebyshev distance 7
from the claimed (60, 45) — not near it under any tolerance below 7
pixels.  (The value 45 comes from measuring the apex from the canvas
centre 60 instead of the glyph centre 67 = 60 + pinSize/4.) -/
theorem C8_counterexample :
    triangleApex 120 = (60, 52) ∧
    chebDist (triangleApex 120) (60, 45) = 7 ∧
    ¬ chebDist (triangleApex 120) (60, 45) ≤ 6 := by
  exact ⟨rfl, rfl, by decide⟩

/-- C8 amended: rendering at size 120 yields a 120×120 image, the white
circle's bounding box spans pixels 15..105 on each axis, and the pin
triangle's apex is at exactly (60, 52) — 7 pixels below (60, 45). -/
theorem C8_render120_amended :
    (renderedImage 120 "Icon-App-60x60@2x.png").map Image.width =
      some 120 ∧
    (renderedImage 120 "Icon-App-60x60@2x.png").map Image.height =
      some 120 ∧
    (createIconImage 120).ops.head? =
      some (DrawOp.ellipse ⟨15, 15, 105, 105⟩ Color.white) ∧
    triangleApex 120 = (60, 52) :=
  ⟨rfl, rfl, rfl, rfl⟩

/-- C10: the fixed table has 17 entries of which exactly the pairs
(40, Icon-App-20x20@2x.png), (58, Icon-App-29x29@2x.png) and
(80, Icon-App-40x40@2x.png) occur twice, only 14 distinct file names
appear, a full run performs 17 writes, and any two entries sharing a file
name write the identical (path, PNG contents) pair. -/
theorem C10_duplicate_entries :
    icons.length = 17 ∧
    icons.count (40, "Icon-App-20x20@2x.png") = 2 ∧
    icons.count (58, "Icon-App-29x29@2x.png") = 2 ∧
    icons.count (80, "Icon-App-40x40@2x.png") = 2 ∧
    (icons.map Prod.snd).dedup.length = 14 ∧
    (batchWrites icons []).length = 17 ∧
    (icons.all fun e₁ => icons.all fun e₂ =>
      e₁.2 != e₂.2 || decide (entryFile e₁ = entryFile e₂)) = true := by
  refine ⟨rfl, ?_, ?_, ?_, ?_, rfl, ?_⟩ <;> decide

/-- C2: after a successful run of the batch driver, every one of the 14
distinct file names of the table exists in the target directory and holds
the PNG encoding of the icon rendered at its listed size, whose pixel
dimensions equal that size. -/
theorem C2_batch_completeness (w : String → Bool) (fs fs' : FS)
    (h : main w fs = Except.ok fs') : completeOutput fs' := by
  have hfs := runIcons_ok w icons fs fs' h
  subst hfs
  rw [batchWrites_eq]
  intro e he
  fin_cases he <;>
    exact ⟨by simp [icons, entryFile, joinPath, icon_dir, lookupFile],
      rfl, rfl⟩

/-- Witness for C2: a run over an empty filesystem with every path
writable. -/
theorem C2_batch_completeness_witness :
    completeOutput (batchWrites icons []) :=
  C2_batch_completeness (fun _ => true) [] (batchWrites icons []) (by rfl)

/-- C5: if some table entry's target path is not writable while every
earlier entry's is, the batch driver stops exactly there with a
FileWriteError naming that path, the filesystem holds only the writes of
the earlier entries (nothing after the failure point is written or
retried), and the process exits non-zero; moreover the exit status is 0
only when every entry's path is writable. -/
theorem C5_first_failure_aborts :
    (∀ (pre : List (Nat × String)) (size : Nat) (filename : String)
        (post : List (Nat × String)) (w : String → Bool) (fs : FS),
        icons = pre ++ (size, filename) :: post →
        (∀ e ∈ pre, w (joinPath icon_dir e.2) = true) →
        w (joinPath icon_dir filename) = false →
        main w fs =
          Except.error
            (BatchError.fileWrite (joinPath icon_dir filename),
             batchWrites pre fs) ∧
        exitCode w fs = 1) ∧
    (∀ (w : String → Bool) (fs : FS),
        exitCode w fs = 0 →
        ∀ e ∈ icons, w (joinPath icon_dir e.2) = true) := by
  constructor
  · intro pre size filename post w fs htab hpre hfail
    have hmain : main w fs =
        Except.error
          (BatchError.fileWrite (joinPath icon_dir filename),
           batchWrites pre fs) := by
      rw [main, htab]
      exact runIcons_fails w pre size filename post fs hpre hfail
    exact ⟨hmain, by simp [exitCode, hmain]⟩
  · intro w fs h0 e he
    cases hm : main w fs with
    | ok fs' => exact runIcons_ok_writable w icons fs fs' hm e he
    | error err =>
        rw [exitCode, hm] at h0
        exact absurd h0 (by simp)

/-- Witness for C5: the third table entry's path is unwritable, the first
two are writable; the run aborts with a FileWriteError for the third path
having written exactly the first two files, and exits 1. -/
theorem C5_first_failure_aborts_witness :
    main
        (fun p =>
          p != joinPath icon_dir "Icon-App-29x29@2x.png") [] =
      Except.error
        (BatchError.fileWrite (joinPath icon_dir "Icon-App-29x29@2x.png"),
         batchWrites
           [(40, "Icon-App-20x20@2x.png"), (60, "Icon-App-20x20@3x.png")]
           []) ∧
    exitCode
        (fun p =>
          p != joinPath icon_dir "Icon-App-29x29@2x.png") [] = 1 :=
  C5_first_failure_aborts.1
    [(40, "Icon-App-20x20@2x.png"), (60, "Icon-App-20x20@3x.png")]
    58 "Icon-App-29x29@2x.png" (icons.drop 3)
    (fun p => p != joinPath icon_dir "Icon-App-29x29@2x.png") []
    (by rfl) (by decide) (by decide)

/-- C9: the batch is idempotent and deterministic: a second run started
from the state a successful first run produced succeeds and leaves every
path's contents byte-identical to what the first run left (each file is
overwritten with the same deterministic PNG encoding). -/
theorem C9_idempotent (w : String → Bool) (fs fs₁ : FS)
    (h : main w fs = Except.ok fs₁) :
    main w fs₁ = Except.ok (batchWrites icons fs₁) ∧
    sameFiles (batchWrites icons fs₁) fs₁ := by
  have hw := runIcons_ok_writable w icons fs fs₁ h
  have h1 := runIcons_ok w icons fs fs₁ h
  constructor
  · exact runIcons_all_writable w icons fs₁ hw
  · intro p
    subst h1
    simp only [batchWrites_eq]
    exact lookupFile_rep _ _ p

/-- Witness for C9: running twice from the empty filesystem with every
path writable. -/
theorem C9_idempotent_witness :
    main (fun _ => true) (batchWrites icons []) =
      Except.ok (batchWrites icons (batchWrites icons [])) ∧
    sameFiles (batchWrites icons (batchWrites icons []))
      (batchWrites icons []) :=
  C9_idempotent (fun _ => true) [] (batchWrites icons []) (by rfl)

end GenerateIcons
